import Mathlib

/-!
Shallow embedding of the Soulboard ICP backend canister
(src/soulboard-icp-backend/src/lib.rs) and verification of its
natural-language specification.

Modelling conventions:
* `NumTokens` (candid `Nat`, arbitrary-precision and non-negative in the
  source) is embedded as `Int`; every operation is proved to preserve
  non-negativity of all stored balances, which is exactly the fact that the
  source's checked `Nat` subtractions never underflow.
* `Principal` is an abstract caller identity, embedded as `Nat`.
* Each `StableBTreeMap` registry is an association list with upsert
  insertion, first-match lookup and key removal.
* The asynchronous ledger call `icp_transfer` is an external collaborator:
  its outcome is passed to each operation as an explicit
  `Except String Nat` argument (`.ok blockIndex` or `.error msg`).
* Each canister method becomes a pure function from the pre-state (plus the
  caller and the transfer outcome where relevant) to the post-state and the
  `Result` value returned to the caller, with the source's error strings.
-/

abbrev NumTokens := Int

abbrev Principal := Nat

inductive LocationStatus where
  | Active
  | Inactive
  | Booked
deriving DecidableEq, Repr

inductive CampaignStatus where
  | Active
  | Paused
deriving DecidableEq, Repr

structure Location where
  id : String
  name : String
  image : String
  base_fees : NumTokens
  views : Nat
  status : LocationStatus
deriving DecidableEq, Repr

structure Provider where
  id : String
  name : String
  owner : Principal
  locations : List Location
  total_earnings : NumTokens
deriving DecidableEq, Repr

structure Campaign where
  id : String
  name : String
  description : String
  image : Option String
  locations : Option (List Location)
  budget : NumTokens
  owner : Principal
  status : CampaignStatus
deriving DecidableEq, Repr

structure ProviderEarnings where
  provider_id : String
  campaign_id : String
  total_earned : NumTokens
  last_withdrawal : Option Nat
deriving DecidableEq, Repr

/-- Lookup in a registry: the value bound to `k`, first match wins
(`StableBTreeMap.get`). -/
def regGet {α : Type} : List (String × α) → String → Option α
  | [], _ => none
  | (k', v) :: rest, k => if k' = k then some v else regGet rest k

/-- Upsert into a registry: replace the binding of `k` if present, append it
otherwise (`StableBTreeMap.insert`). -/
def regInsert {α : Type} : List (String × α) → String → α → List (String × α)
  | [], k, v => [(k, v)]
  | (k', v') :: rest, k, v =>
      if k' = k then (k, v) :: rest else (k', v') :: regInsert rest k v

/-- Removal from a registry (`StableBTreeMap.remove`). -/
def regRemove {α : Type} : List (String × α) → String → List (String × α)
  | [], _ => []
  | (k', v') :: rest, k =>
      if k' = k then regRemove rest k else (k', v') :: regRemove rest k

/-- The canister's global state: the three stable registries and the two ID
counters from the `thread_local!` block. -/
structure CanisterState where
  campaign_registry : List (String × Campaign)
  provider_registry : List (String × Provider)
  earnings_registry : List (String × ProviderEarnings)
  campaign_counter : Nat
  provider_counter : Nat
deriving DecidableEq, Repr

/-- The state right after canister installation: empty registries, both
counters zero. -/
def initState : CanisterState :=
  { campaign_registry := []
    provider_registry := []
    earnings_registry := []
    campaign_counter := 0
    provider_counter := 0 }

/-- Increments the u64 CAMPAIGN_COUNTER — the unchecked `+=` wraps at
`2 ^ 64` — then formats `campaign_<counter>`. -/
def generate_campaign_id (st : CanisterState) : String × CanisterState :=
  let c := (st.campaign_counter + 1) % 2 ^ 64
  ("campaign_" ++ Nat.repr c, { st with campaign_counter := c })

/-- Increments the u64 PROVIDER_COUNTER — the unchecked `+=` wraps at
`2 ^ 64` — then formats `provider_<counter>`. -/
def generate_provider_id (st : CanisterState) : String × CanisterState :=
  let c := (st.provider_counter + 1) % 2 ^ 64
  ("provider_" ++ Nat.repr c, { st with provider_counter := c })

/-- Creates a Provider owned by the caller with zero earnings and inserts it
under a fresh id. -/
def register_provider (st : CanisterState) (caller : Principal)
    (name : String) (locations : List Location) :
    CanisterState × Except String String :=
  let (provider_id, st1) := generate_provider_id st
  let provider : Provider :=
    { id := provider_id
      name := name
      owner := caller
      locations := locations
      total_earnings := 0 }
  ({ st1 with
      provider_registry := regInsert st1.provider_registry provider_id provider },
   .ok provider_id)

/-- Creates a Campaign owned by the caller with the given declared budget and
Active status, inserted under a fresh id. -/
def create_campaign (st : CanisterState) (caller : Principal)
    (name description : String) (image : Option String)
    (locations : Option (List Location)) (budget : NumTokens) :
    CanisterState × Except String String :=
  let (campaign_id, st1) := generate_campaign_id st
  let campaign : Campaign :=
    { id := campaign_id
      name := name
      description := description
      image := image
      locations := locations
      budget := budget
      owner := caller
      status := CampaignStatus.Active }
  ({ st1 with
      campaign_registry := regInsert st1.campaign_registry campaign_id campaign },
   .ok campaign_id)

/-- Checks existence and ownership, then performs the external transfer; only
on transfer success re-reads the campaign and increments its budget. -/
def fund_campaign (st : CanisterState) (caller : Principal)
    (campaign_id : String) (amount : NumTokens)
    (transfer : Except String Nat) : CanisterState × Except String String :=
  match regGet st.campaign_registry campaign_id with
  | none => (st, .error "Campaign not found")
  | some campaign =>
    if campaign.owner ≠ caller then
      (st, .error "Unauthorized: You can only fund your own campaigns")
    else
      match transfer with
      | .ok block_index =>
        let st' :=
          match regGet st.campaign_registry campaign_id with
          | some c =>
            { st with
                campaign_registry :=
                  regInsert st.campaign_registry campaign_id
                    { c with budget := c.budget + amount } }
          | none => st
        (st', .ok ("Campaign funded successfully. Transfer block index: "
                    ++ Nat.repr block_index))
      | .error e => (st, .error ("Failed to transfer ICP: " ++ e))

/-- Checks existence, ownership and sufficiency of earnings, then performs the
external transfer; only on success re-reads the provider and decrements its
total earnings. -/
def withdraw_provider_earnings (st : CanisterState) (caller : Principal)
    (provider_id : String) (amount : NumTokens)
    (transfer : Except String Nat) : CanisterState × Except String String :=
  match regGet st.provider_registry provider_id with
  | none => (st, .error "Provider not found")
  | some provider =>
    if provider.owner ≠ caller then
      (st, .error "Unauthorized: You can only withdraw from your own provider account")
    else if provider.total_earnings < amount then
      (st, .error "Insufficient earnings to withdraw")
    else
      match transfer with
      | .ok block_index =>
        let st' :=
          match regGet st.provider_registry provider_id with
          | some p =>
            { st with
                provider_registry :=
                  regInsert st.provider_registry provider_id
                    { p with total_earnings := p.total_earnings - amount } }
          | none => st
        (st', .ok ("Withdrawal successful. Transfer block index: "
                    ++ Nat.repr block_index))
      | .error e => (st, .error ("Failed to transfer ICP: " ++ e))

/-- Checks campaign existence, ownership and budget sufficiency, then provider
existence; then decrements the campaign budget, increments the provider's
total earnings, and upserts the `provider:campaign` earnings record. Purely
local: no external transfer. -/
def pay_provider (st : CanisterState) (caller : Principal)
    (campaign_id provider_id : String) (amount : NumTokens) :
    CanisterState × Except String String :=
  match regGet st.campaign_registry campaign_id with
  | none => (st, .error "Campaign not found")
  | some campaign =>
    if campaign.owner ≠ caller then
      (st, .error "Unauthorized: You can only pay from your own campaigns")
    else if campaign.budget < amount then
      (st, .error "Insufficient campaign budget")
    else
      match regGet st.provider_registry provider_id with
      | none => (st, .error "Provider not found")
      | some _ =>
        let st1 :=
          match regGet st.campaign_registry campaign_id with
          | some c =>
            { st with
                campaign_registry :=
                  regInsert st.campaign_registry campaign_id
                    { c with budget := c.budget - amount } }
          | none => st
        let st2 :=
          match regGet st1.provider_registry provider_id with
          | some p =>
            { st1 with
                provider_registry :=
                  regInsert st1.provider_registry provider_id
                    { p with total_earnings := p.total_earnings + amount } }
          | none => st1
        let earnings_key := provider_id ++ ":" ++ campaign_id
        let st3 :=
          match regGet st2.earnings_registry earnings_key with
          | some earnings =>
            { st2 with
                earnings_registry :=
                  regInsert st2.earnings_registry earnings_key
                    { earnings with total_earned := earnings.total_earned + amount } }
          | none =>
            { st2 with
                earnings_registry :=
                  regInsert st2.earnings_registry earnings_key
                    { provider_id := provider_id
                      campaign_id := campaign_id
                      total_earned := amount
                      last_withdrawal := none } }
        (st3, .ok ("Payment of " ++ toString amount ++ " tokens made to provider "
                    ++ provider_id))

/-- Checks existence, ownership and budget sufficiency and speculatively
decrements the budget BEFORE the transfer; on transfer failure re-increments
the budget by the same amount (compensating action). -/
def withdraw_campaign_funds (st : CanisterState) (caller : Principal)
    (campaign_id : String) (amount : NumTokens)
    (transfer : Except String Nat) : CanisterState × Except String String :=
  match regGet st.campaign_registry campaign_id with
  | none => (st, .error "Campaign not found")
  | some campaign =>
    if campaign.owner ≠ caller then
      (st, .error "Unauthorized: You can only withdraw from your own campaigns")
    else if campaign.budget < amount then
      (st, .error "Insufficient funds")
    else
      let stDec : CanisterState :=
        { st with
            campaign_registry :=
              regInsert st.campaign_registry campaign_id
                { campaign with budget := campaign.budget - amount } }
      match transfer with
      | .ok block_index =>
        (stDec, .ok ("Campaign funds withdrawal successful. Transfer block index: "
                      ++ Nat.repr block_index))
      | .error e =>
        let stBack :=
          match regGet stDec.campaign_registry campaign_id with
          | some c =>
            { stDec with
                campaign_registry :=
                  regInsert stDec.campaign_registry campaign_id
                    { c with budget := c.budget + amount } }
          | none => stDec
        (stBack, .error ("Failed to transfer ICP: " ++ e))

/-- Checks existence and ownership, then removes the Campaign record,
unconditionally on its budget. No transfer is involved. -/
def close_campaign (st : CanisterState) (caller : Principal)
    (campaign_id : String) : CanisterState × Except String Unit :=
  match regGet st.campaign_registry campaign_id with
  | none => (st, .error "Campaign not found")
  | some campaign =>
    if campaign.owner ≠ caller then
      (st, .error "Unauthorized: You can only close your own campaigns")
    else
      ({ st with campaign_registry := regRemove st.campaign_registry campaign_id },
       .ok ())

/-- Owner-only query of a provider's aggregate earnings. -/
def get_provider_earnings (st : CanisterState) (caller : Principal)
    (provider_id : String) : Except String NumTokens :=
  match regGet st.provider_registry provider_id with
  | none => .error "Provider not found"
  | some provider =>
    if provider.owner ≠ caller then
      .error "Unauthorized: You can only view your own provider earnings"
    else
      .ok provider.total_earnings

/-- Owner-only query of a provider's per-campaign earnings records, by a
linear scan of the earnings registry filtered on provider id. -/
def get_provider_earnings_breakdown (st : CanisterState) (caller : Principal)
    (provider_id : String) : Except String (List ProviderEarnings) :=
  match regGet st.provider_registry provider_id with
  | none => .error "Provider not found"
  | some provider =>
    if provider.owner ≠ caller then
      .error "Unauthorized: You can only view your own provider earnings"
    else
      .ok (((st.earnings_registry.map Prod.snd).filter
              (fun e => e.provider_id = provider_id)))

/-- Owner-only query of a campaign's current budget. -/
def get_campaign_balance (st : CanisterState) (caller : Principal)
    (campaign_id : String) : Except String NumTokens :=
  match regGet st.campaign_registry campaign_id with
  | none => .error "Campaign not found"
  | some campaign =>
    if campaign.owner ≠ caller then
      .error "Unauthorized: You can only view your own campaign balance"
    else
      .ok campaign.budget

/-- Caller-filtered campaign listing. -/
def get_my_campaigns (st : CanisterState) (caller : Principal) : List Campaign :=
  (st.campaign_registry.map Prod.snd).filter (fun c => c.owner = caller)

/-- Caller-filtered provider listing. -/
def get_my_providers (st : CanisterState) (caller : Principal) : List Provider :=
  (st.provider_registry.map Prod.snd).filter (fun p => p.owner = caller)

/-- Public marketplace listing of the full provider records; takes no caller
and applies no filter. -/
def get_all_providers (st : CanisterState) : List Provider :=
  st.provider_registry.map Prod.snd

/-- Public marketplace listing of every provider's locations. -/
def get_all_locations (st : CanisterState) : List Location :=
  (st.provider_registry.map Prod.snd).flatMap (fun p => p.locations)

/-- The ids produced by the first `n` successive calls of
`generate_campaign_id` starting from state `st`. -/
def genCampaignIds : Nat → CanisterState → List String
  | 0, _ => []
  | n + 1, st =>
    let (id, st') := generate_campaign_id st
    id :: genCampaignIds n st'

/-- The ids produced by the first `n` successive calls of
`generate_provider_id` starting from state `st`. -/
def genProviderIds : Nat → CanisterState → List String
  | 0, _ => []
  | n + 1, st =>
    let (id, st') := generate_provider_id st
    id :: genProviderIds n st'

/-- One completed call of a state-changing entry point, together with the
outcome of its external transfer where it performs one. -/
inductive Op where
  | register_provider (caller : Principal) (name : String) (locations : List Location)
  | create_campaign (caller : Principal) (name description : String)
      (image : Option String) (locations : Option (List Location)) (budget : NumTokens)
  | fund_campaign (caller : Principal) (campaign_id : String)
      (amount : NumTokens) (transfer : Except String Nat)
  | withdraw_provider_earnings (caller : Principal) (provider_id : String)
      (amount : NumTokens) (transfer : Except String Nat)
  | pay_provider (caller : Principal) (campaign_id provider_id : String)
      (amount : NumTokens)
  | withdraw_campaign_funds (caller : Principal) (campaign_id : String)
      (amount : NumTokens) (transfer : Except String Nat)
  | close_campaign (caller : Principal) (campaign_id : String)

/-- Amounts arriving at the candid boundary are `nat`s, hence non-negative;
this is the only well-formedness the environment guarantees for an `Op`. -/
def Op.wf : Op → Prop
  | .register_provider _ _ _ => True
  | .create_campaign _ _ _ _ _ budget => 0 ≤ budget
  | .fund_campaign _ _ amount _ => 0 ≤ amount
  | .withdraw_provider_earnings _ _ amount _ => 0 ≤ amount
  | .pay_provider _ _ _ amount => 0 ≤ amount
  | .withdraw_campaign_funds _ _ amount _ => 0 ≤ amount
  | .close_campaign _ _ => True

/-- The state transition of one completed operation (the returned value is
discarded). -/
def applyOp (st : CanisterState) : Op → CanisterState
  | .register_provider caller name locations =>
      (register_provider st caller name locations).1
  | .create_campaign caller name description image locations budget =>
      (create_campaign st caller name description image locations budget).1
  | .fund_campaign caller campaign_id amount transfer =>
      (fund_campaign st caller campaign_id amount transfer).1
  | .withdraw_provider_earnings caller provider_id amount transfer =>
      (withdraw_provider_earnings st caller provider_id amount transfer).1
  | .pay_provider caller campaign_id provider_id amount =>
      (pay_provider st caller campaign_id provider_id amount).1
  | .withdraw_campaign_funds caller campaign_id amount transfer =>
      (withdraw_campaign_funds st caller campaign_id amount transfer).1
  | .close_campaign caller campaign_id =>
      (close_campaign st caller campaign_id).1

/-- Every stored campaign budget and every stored provider earnings total is
non-negative. -/
def Nonneg (st : CanisterState) : Prop :=
  (∀ k c, regGet st.campaign_registry k = some c → 0 ≤ c.budget) ∧
  (∀ k p, regGet st.provider_registry k = some p → 0 ≤ p.total_earnings)

/-- Inverse of `Nat.digitChar` on decimal digits, used to show decimal
rendering is injective. -/
def charVal (c : Char) : Nat :=
  if c = '0' then 0 else if c = '1' then 1 else if c = '2' then 2
  else if c = '3' then 3 else if c = '4' then 4 else if c = '5' then 5
  else if c = '6' then 6 else if c = '7' then 7 else if c = '8' then 8
  else if c = '9' then 9 else 10

/-- Provider record used in concrete instantiations, with zero earnings. -/
def exProviderA : Provider :=
  { id := "provider_1", name := "Billboards Inc", owner := 1,
    locations := [], total_earnings := 0 }

/-- The same provider record except for its earnings total. -/
def exProviderB : Provider :=
  { id := "provider_1", name := "Billboards Inc", owner := 1,
    locations := [], total_earnings := 42 }

/-- Campaign record used in concrete instantiations. -/
def exCampaign : Campaign :=
  { id := "campaign_1", name := "Launch", description := "ad run",
    image := none, locations := none, budget := 100, owner := 1,
    status := CampaignStatus.Active }

/-- Concrete state holding `exProviderA` and `exCampaign`. -/
def exStateA : CanisterState :=
  { campaign_registry := [("campaign_1", exCampaign)]
    provider_registry := [("provider_1", exProviderA)]
    earnings_registry := []
    campaign_counter := 1
    provider_counter := 1 }

/-- Concrete state identical to `exStateA` except that the provider's
earnings total is 42 instead of 0. -/
def exStateB : CanisterState :=
  { campaign_registry := [("campaign_1", exCampaign)]
    provider_registry := [("provider_1", exProviderB)]
    earnings_registry := []
    campaign_counter := 1
    provider_counter := 1 }

/-! ### Registry lemmas -/

theorem regGet_regInsert {α : Type} (r : List (String × α)) (k k' : String) (v : α) :
    regGet (regInsert r k v) k' = if k = k' then some v else regGet r k' := by
  induction r with
  | nil =>
    by_cases h : k = k' <;> simp [regInsert, regGet, h]
  | cons hd tl ih =>
    obtain ⟨k₀, v₀⟩ := hd
    by_cases h0 : k₀ = k
    · subst h0
      by_cases h : k₀ = k' <;> simp [regInsert, regGet, h]
    · by_cases h : k₀ = k'
      · subst h
        have hkk : ¬ k = k₀ := fun h => h0 h.symm
        simp [regInsert, regGet, h0, hkk]
      · simp [regInsert, regGet, h0, h, ih]

theorem regInsert_same {α : Type} (r : List (String × α)) (k : String) (v : α)
    (h : regGet r k = some v) : regInsert r k v = r := by
  induction r with
  | nil => simp [regGet] at h
  | cons hd tl ih =>
    obtain ⟨k₀, v₀⟩ := hd
    by_cases h0 : k₀ = k
    · subst h0
      simp [regGet] at h
      simp [regInsert, h]
    · simp [regGet, h0] at h
      simp [regInsert, h0, ih h]

theorem regInsert_regInsert {α : Type} (r : List (String × α)) (k : String) (v v' : α) :
    regInsert (regInsert r k v) k v' = regInsert r k v' := by
  induction r with
  | nil => simp [regInsert]
  | cons hd tl ih =>
    obtain ⟨k₀, v₀⟩ := hd
    by_cases h0 : k₀ = k
    · subst h0
      simp [regInsert]
    · simp [regInsert, h0, ih]

theorem regGet_regRemove {α : Type} (r : List (String × α)) (k k' : String) :
    regGet (regRemove r k) k' = if k = k' then none else regGet r k' := by
  induction r with
  | nil => by_cases h : k = k' <;> simp [regRemove, regGet, h]
  | cons hd tl ih =>
    obtain ⟨k₀, v₀⟩ := hd
    by_cases h0 : k₀ = k
    · subst h0
      by_cases h : k₀ = k'
      · subst h
        simp [regRemove, regGet, ih]
      · simp [regRemove, regGet, ih, h]
    · by_cases h : k₀ = k'
      · subst h
        have hkk : ¬ k = k₀ := fun h => h0 h.symm
        simp [regRemove, regGet, h0, hkk]
      · simp [regRemove, regGet, h0, h, ih]

theorem regGet_mem {α : Type} (r : List (String × α)) (k : String) (v : α)
    (h : regGet r k = some v) : v ∈ r.map Prod.snd := by
  induction r with
  | nil => simp [regGet] at h
  | cons hd tl ih =>
    obtain ⟨k₀, v₀⟩ := hd
    by_cases h0 : k₀ = k
    · subst h0
      simp [regGet] at h
      simp [h]
    · simp [regGet, h0] at h
      simp [ih h]

/-! ### Claim theorems -/

/-- C9: `withdraw_provider_earnings` leaves the earnings registry unchanged
for every input, caller and transfer outcome: no record's `total_earned` is
decremented, no record is deleted, and no `last_withdrawal` is set. -/
theorem C9_withdraw_earnings_registry_frame (st : CanisterState)
    (caller : Principal) (provider_id : String) (amount : NumTokens)
    (transfer : Except String Nat) :
    (withdraw_provider_earnings st caller provider_id amount transfer).1.earnings_registry
      = st.earnings_registry := by
  unfold withdraw_provider_earnings
  cases hg : regGet st.provider_registry provider_id with
  | none => rfl
  | some p =>
    by_cases how : p.owner ≠ caller
    · simp [how]
    · by_cases hins : p.total_earnings < amount
      · simp [how, hins]
      · cases transfer with
        | error e => simp [how, hins]
        | ok b => simp [how, hins, hg]

/-- C8: when called by the owner, `close_campaign` removes the campaign
record unconditionally — with no check that the budget is zero and no
transfer of any remaining balance — and succeeds. -/
theorem C8_close_campaign_unconditional (st : CanisterState)
    (caller : Principal) (campaign_id : String) (c : Campaign)
    (hc : regGet st.campaign_registry campaign_id = some c)
    (how : c.owner = caller) :
    close_campaign st caller campaign_id =
      ({ st with campaign_registry := regRemove st.campaign_registry campaign_id },
        Except.ok ()) ∧
    regGet (close_campaign st caller campaign_id).1.campaign_registry campaign_id
      = none := by
  have hrun : close_campaign st caller campaign_id =
      ({ st with campaign_registry := regRemove st.campaign_registry campaign_id },
        Except.ok ()) := by
    simp [close_campaign, hc, how]
  exact ⟨hrun, by rw [hrun]; simp [regGet_regRemove]⟩

/-- Witness for C8 at a concrete state whose campaign has the nonzero budget
100: the campaign is removed and the call succeeds anyway. -/
theorem C8_witness :
    exCampaign.budget = 100 ∧
    regGet (close_campaign exStateA 1 "campaign_1").1.campaign_registry "campaign_1"
      = none := by
  refine ⟨by decide, ?_⟩
  exact (C8_close_campaign_unconditional exStateA 1 "campaign_1" exCampaign
    (by decide) (by decide)).2

/-- C1: if `withdraw_campaign_funds` passes its ownership and
budget-sufficiency checks and the external transfer then fails, the
compensating re-increment restores the whole state — in particular
`campaign.budget` — to exactly its pre-call value, and the operation returns
the transfer failure. -/
theorem C1_withdraw_campaign_funds_rollback (st : CanisterState)
    (caller : Principal) (campaign_id : String) (amount : NumTokens)
    (e : String) (c : Campaign)
    (hc : regGet st.campaign_registry campaign_id = some c)
    (how : c.owner = caller)
    (hbud : amount ≤ c.budget) :
    (withdraw_campaign_funds st caller campaign_id amount (.error e)).1 = st ∧
    regGet (withdraw_campaign_funds st caller campaign_id amount
        (.error e)).1.campaign_registry campaign_id = some c ∧
    (withdraw_campaign_funds st caller campaign_id amount (.error e)).2
      = .error ("Failed to transfer ICP: " ++ e) := by
  have hnot : ¬ c.budget < amount := not_lt.mpr hbud
  subst how
  have hstate : (withdraw_campaign_funds st c.owner campaign_id amount (.error e)).1 = st := by
    simp [withdraw_campaign_funds, hc, hnot, regGet_regInsert, regInsert_regInsert]
    show ({ st with
            campaign_registry := regInsert st.campaign_registry campaign_id c } :
          CanisterState) = st
    rw [regInsert_same st.campaign_registry campaign_id c hc]
  refine ⟨hstate, by rw [hstate]; exact hc, ?_⟩
  simp [withdraw_campaign_funds, hc, hnot]

/-- Witness for C1: campaign with budget 100, failed transfer of 30; the
state is fully restored and the error surfaces the transfer failure. -/
theorem C1_witness :
    (withdraw_campaign_funds exStateA 1 "campaign_1" 30 (.error "net down")).1
      = exStateA ∧
    (withdraw_campaign_funds exStateA 1 "campaign_1" 30 (.error "net down")).2
      = .error ("Failed to transfer ICP: " ++ "net down") := by
  obtain ⟨h1, _, h3⟩ := C1_withdraw_campaign_funds_rollback exStateA 1 "campaign_1"
    30 "net down" exCampaign (by decide) (by decide) (by decide)
  exact ⟨h1, h3⟩

/-- C2: for an existing campaign owned by the caller, `fund_campaign`
increments the stored budget by exactly `amount` when the external transfer
succeeds, and returns the whole state unchanged when the external transfer
fails. -/
theorem C2_fund_campaign_exact (st : CanisterState) (caller : Principal)
    (campaign_id : String) (amount : NumTokens) (c : Campaign)
    (hc : regGet st.campaign_registry campaign_id = some c)
    (how : c.owner = caller) :
    (∀ b : Nat,
      regGet (fund_campaign st caller campaign_id amount
          (.ok b)).1.campaign_registry campaign_id
        = some { c with budget := c.budget + amount }) ∧
    (∀ e : String,
      fund_campaign st caller campaign_id amount (.error e)
        = (st, .error ("Failed to transfer ICP: " ++ e))) := by
  constructor
  · intro b
    simp [fund_campaign, hc, how, regGet_regInsert]
  · intro e
    simp [fund_campaign, hc, how]

/-- Witness for C2: funding the concrete campaign (budget 100) with 50 gives
budget 150 on success, and an untouched state on failure. -/
theorem C2_witness :
    (regGet (fund_campaign exStateA 1 "campaign_1" 50
        (.ok 7)).1.campaign_registry "campaign_1"
      = some { exCampaign with budget := 150 }) ∧
    fund_campaign exStateA 1 "campaign_1" 50 (.error "net down")
      = (exStateA, .error "Failed to transfer ICP: net down") := by
  obtain ⟨h1, h2⟩ := C2_fund_campaign_exact exStateA 1 "campaign_1" 50 exCampaign
    (by decide) (by decide)
  exact ⟨h1 7, h2 "net down"⟩

/-- C6: a caller who is not the owner of the targeted entity gets an
Unauthorized error from each of `fund_campaign`, `withdraw_campaign_funds`,
`withdraw_provider_earnings`, `pay_provider` and `close_campaign`, and the
whole state (all registries and counters) is returned unchanged. -/
theorem C6_unauthorized_rejected (st : CanisterState) (caller : Principal)
    (campaign_id provider_id : String) (amount : NumTokens)
    (transfer : Except String Nat) :
    (∀ c, regGet st.campaign_registry campaign_id = some c → c.owner ≠ caller →
      fund_campaign st caller campaign_id amount transfer
        = (st, .error "Unauthorized: You can only fund your own campaigns")) ∧
    (∀ c, regGet st.campaign_registry campaign_id = some c → c.owner ≠ caller →
      withdraw_campaign_funds st caller campaign_id amount transfer
        = (st, .error "Unauthorized: You can only withdraw from your own campaigns")) ∧
    (∀ p, regGet st.provider_registry provider_id = some p → p.owner ≠ caller →
      withdraw_provider_earnings st caller provider_id amount transfer
        = (st, .error "Unauthorized: You can only withdraw from your own provider account")) ∧
    (∀ c, regGet st.campaign_registry campaign_id = some c → c.owner ≠ caller →
      pay_provider st caller campaign_id provider_id amount
        = (st, .error "Unauthorized: You can only pay from your own campaigns")) ∧
    (∀ c, regGet st.campaign_registry campaign_id = some c → c.owner ≠ caller →
      close_campaign st caller campaign_id
        = (st, .error "Unauthorized: You can only close your own campaigns")) := by
  refine ⟨?_, ?_, ?_, ?_, ?_⟩
  · intro c hc how
    simp [fund_campaign, hc, how]
  · intro c hc how
    simp [withdraw_campaign_funds, hc, how]
  · intro p hp how
    simp [withdraw_provider_earnings, hp, how]
  · intro c hc how
    simp [pay_provider, hc, how]
  · intro c hc how
    simp [close_campaign, hc, how]

/-- Witness for C6: caller 2 does not own the concrete campaign or provider
(both owned by 1); all five operations reject without touching the state. -/
theorem C6_witness :
    fund_campaign exStateA 2 "campaign_1" 10 (.ok 7)
      = (exStateA, .error "Unauthorized: You can only fund your own campaigns") ∧
    withdraw_campaign_funds exStateA 2 "campaign_1" 10 (.ok 7)
      = (exStateA, .error "Unauthorized: You can only withdraw from your own campaigns") ∧
    withdraw_provider_earnings exStateA 2 "provider_1" 10 (.ok 7)
      = (exStateA, .error "Unauthorized: You can only withdraw from your own provider account") ∧
    pay_provider exStateA 2 "campaign_1" "provider_1" 10
      = (exStateA, .error "Unauthorized: You can only pay from your own campaigns") ∧
    close_campaign exStateA 2 "campaign_1"
      = (exStateA, .error "Unauthorized: You can only close your own campaigns") := by
  obtain ⟨h1, h2, h3, h4, h5⟩ := C6_unauthorized_rejected exStateA 2 "campaign_1"
    "provider_1" 10 (.ok 7)
  exact ⟨h1 exCampaign (by decide) (by decide),
         h2 exCampaign (by decide) (by decide),
         h3 exProviderA (by decide) (by decide),
         h4 exCampaign (by decide) (by decide),
         h5 exCampaign (by decide) (by decide)⟩

/-- C4: `withdraw_provider_earnings` fails with the not-found error for an
unknown provider, with the unauthorized error for a non-owner caller, and
with the insufficient-earnings error when `total_earnings < amount`, each
leaving the state unchanged; when the checks pass it decrements
`total_earnings` by exactly `amount` on transfer success, and returns the
state unchanged on transfer failure. -/
theorem C4_withdraw_provider_earnings_cases (st : CanisterState)
    (caller : Principal) (provider_id : String) (amount : NumTokens) :
    (∀ transfer, regGet st.provider_registry provider_id = none →
      withdraw_provider_earnings st caller provider_id amount transfer
        = (st, .error "Provider not found")) ∧
    (∀ transfer p, regGet st.provider_registry provider_id = some p →
      p.owner ≠ caller →
      withdraw_provider_earnings st caller provider_id amount transfer
        = (st, .error "Unauthorized: You can only withdraw from your own provider account")) ∧
    (∀ transfer p, regGet st.provider_registry provider_id = some p →
      p.owner = caller → p.total_earnings < amount →
      withdraw_provider_earnings st caller provider_id amount transfer
        = (st, .error "Insufficient earnings to withdraw")) ∧
    (∀ (b : Nat) p, regGet st.provider_registry provider_id = some p →
      p.owner = caller → ¬ p.total_earnings < amount →
      regGet (withdraw_provider_earnings st caller provider_id amount
          (.ok b)).1.provider_registry provider_id
        = some { p with total_earnings := p.total_earnings - amount }) ∧
    (∀ (e : String) p, regGet st.provider_registry provider_id = some p →
      p.owner = caller → ¬ p.total_earnings < amount →
      withdraw_provider_earnings st caller provider_id amount (.error e)
        = (st, .error ("Failed to transfer ICP: " ++ e))) := by
  refine ⟨?_, ?_, ?_, ?_, ?_⟩
  · intro transfer hp
    simp [withdraw_provider_earnings, hp]
  · intro transfer p hp how
    simp [withdraw_provider_earnings, hp, how]
  · intro transfer p hp how hins
    simp [withdraw_provider_earnings, hp, how, hins]
  · intro b p hp how hins
    subst how
    simp [withdraw_provider_earnings, hp, hins, regGet_regInsert]
  · intro e p hp how hins
    subst how
    simp [withdraw_provider_earnings, hp, hins]

/-- Witness for C4: on the concrete state — provider unknown id, non-owner
caller, over-withdrawal by the owner, and a successful withdrawal of 30 from
earnings 42 leaving 12. -/
theorem C4_witness :
    withdraw_provider_earnings exStateB 1 "provider_9" 10 (.ok 7)
      = (exStateB, .error "Provider not found") ∧
    withdraw_provider_earnings exStateB 2 "provider_1" 10 (.ok 7)
      = (exStateB, .error "Unauthorized: You can only withdraw from your own provider account") ∧
    withdraw_provider_earnings exStateB 1 "provider_1" 100 (.ok 7)
      = (exStateB, .error "Insufficient earnings to withdraw") ∧
    regGet (withdraw_provider_earnings exStateB 1 "provider_1" 30
        (.ok 7)).1.provider_registry "provider_1"
      = some { exProviderB with total_earnings := 12 } ∧
    withdraw_provider_earnings exStateB 1 "provider_1" 30 (.error "net down")
      = (exStateB, .error "Failed to transfer ICP: net down") := by
  refine ⟨?_, ?_, ?_, ?_, ?_⟩
  · exact (C4_withdraw_provider_earnings_cases exStateB 1 "provider_9" 10).1
      (.ok 7) (by decide)
  · exact (C4_withdraw_provider_earnings_cases exStateB 2 "provider_1" 10).2.1
      (.ok 7) exProviderB (by decide) (by decide)
  · exact (C4_withdraw_provider_earnings_cases exStateB 1 "provider_1" 100).2.2.1
      (.ok 7) exProviderB (by decide) (by decide) (by decide)
  · exact (C4_withdraw_provider_earnings_cases exStateB 1 "provider_1" 30).2.2.2.1
      7 exProviderB (by decide) (by decide) (by decide)
  · exact (C4_withdraw_provider_earnings_cases exStateB 1 "provider_1" 30).2.2.2.2
      "net down" exProviderB (by decide) (by decide) (by decide)

/-- C3: when the caller owns campaign `c`, `c.budget ≥ amount` and provider
`p` exists, `pay_provider` performs exactly the triple update — campaign
budget decremented, provider total earnings incremented, and the
`(provider, campaign)` earnings record incremented (created with
`total_earned = amount` and no withdrawal timestamp when absent) — and when
any precondition fails (an error is returned) the state is unchanged. -/
theorem C3_pay_provider_atomic (st : CanisterState) (caller : Principal)
    (campaign_id provider_id : String) (amount : NumTokens) :
    (∀ c p, regGet st.campaign_registry campaign_id = some c →
      c.owner = caller → ¬ c.budget < amount →
      regGet st.provider_registry provider_id = some p →
      regGet (pay_provider st caller campaign_id provider_id
          amount).1.campaign_registry campaign_id
        = some { c with budget := c.budget - amount } ∧
      regGet (pay_provider st caller campaign_id provider_id
          amount).1.provider_registry provider_id
        = some { p with total_earnings := p.total_earnings + amount } ∧
      (∀ e0, regGet st.earnings_registry (provider_id ++ ":" ++ campaign_id) = some e0 →
        regGet (pay_provider st caller campaign_id provider_id
            amount).1.earnings_registry (provider_id ++ ":" ++ campaign_id)
          = some { e0 with total_earned := e0.total_earned + amount }) ∧
      (regGet st.earnings_registry (provider_id ++ ":" ++ campaign_id) = none →
        regGet (pay_provider st caller campaign_id provider_id
            amount).1.earnings_registry (provider_id ++ ":" ++ campaign_id)
          = some { provider_id := provider_id, campaign_id := campaign_id,
                   total_earned := amount, last_withdrawal := none })) ∧
    (∀ msg, (pay_provider st caller campaign_id provider_id amount).2 = .error msg →
      (pay_provider st caller campaign_id provider_id amount).1 = st) := by
  constructor
  · intro c p hc how hbud hp
    subst how
    refine ⟨?_, ?_, ?_, ?_⟩
    · cases he : regGet st.earnings_registry (provider_id ++ ":" ++ campaign_id) <;>
        simp [pay_provider, hc, hp, hbud, he, regGet_regInsert]
    · cases he : regGet st.earnings_registry (provider_id ++ ":" ++ campaign_id) <;>
        simp [pay_provider, hc, hp, hbud, he, regGet_regInsert]
    · intro e0 he
      simp [pay_provider, hc, hp, hbud, he, regGet_regInsert]
    · intro he
      simp [pay_provider, hc, hp, hbud, he, regGet_regInsert]
  · intro msg hmsg
    cases hc : regGet st.campaign_registry campaign_id with
    | none => simp [pay_provider, hc]
    | some c =>
      by_cases how : c.owner = caller
      · by_cases hbud : c.budget < amount
        · simp [pay_provider, hc, how, hbud]
        · cases hp : regGet st.provider_registry provider_id with
          | none => simp [pay_provider, hc, how, hbud, hp]
          | some p =>
            exfalso
            cases he : regGet st.earnings_registry (provider_id ++ ":" ++ campaign_id) <;>
              simp [pay_provider, hc, how, hbud, hp, he] at hmsg
      · simp [pay_provider, hc, how]

/-- Witness for C3: paying 40 from the concrete campaign (budget 100) to the
concrete provider (earnings 42) gives budget 60, earnings 82 and a fresh
`(provider_1, campaign_1)` record of 40; a failing call (unknown provider)
leaves the state unchanged. -/
theorem C3_witness :
    regGet (pay_provider exStateB 1 "campaign_1" "provider_1"
        40).1.campaign_registry "campaign_1"
      = some { exCampaign with budget := 60 } ∧
    regGet (pay_provider exStateB 1 "campaign_1" "provider_1"
        40).1.provider_registry "provider_1"
      = some { exProviderB with total_earnings := 82 } ∧
    regGet (pay_provider exStateB 1 "campaign_1" "provider_1"
        40).1.earnings_registry "provider_1:campaign_1"
      = some { provider_id := "provider_1", campaign_id := "campaign_1",
               total_earned := 40, last_withdrawal := none } ∧
    (pay_provider exStateB 1 "campaign_1" "provider_9" 5).1 = exStateB := by
  obtain ⟨hok, _⟩ := C3_pay_provider_atomic exStateB 1 "campaign_1" "provider_1" 40
  obtain ⟨h1, h2, _, h4⟩ := hok exCampaign exProviderB (by decide) (by decide)
    (by decide) (by decide)
  refine ⟨h1, h2, ?_, ?_⟩
  · have := h4 (by decide)
    simpa using this
  · exact (C3_pay_provider_atomic exStateB 1 "campaign_1" "provider_9" 5).2
      "Provider not found" (by rfl)

/-- C5 counterexample: `exStateA` and `exStateB` are identical except for the
provider's `total_earnings` (0 vs 42), yet the marketplace read
`get_all_providers` — which takes no caller and applies no filter — returns
different results and exposes the earnings total 42 verbatim, so a non-owner
does learn the provider's earnings from a read operation. -/
theorem C5_counterexample :
    ({ exStateB with provider_registry :=
        [("provider_1", { exProviderB with total_earnings := 0 })] } = exStateA) ∧
    get_all_providers exStateA ≠ get_all_providers exStateB ∧
    (get_all_providers exStateB).map Provider.total_earnings = [42] := by
  refine ⟨by decide, by decide, by decide⟩

/-- C5 amended: the dedicated earnings queries `get_provider_earnings` and
`get_provider_earnings_breakdown` are owner-only — a non-owner caller gets an
Unauthorized error — but the open marketplace read `get_all_providers`
returns every full Provider record, `total_earnings` field included, to any
caller. -/
theorem C5_amended_earnings_exposure (st : CanisterState) (caller : Principal)
    (provider_id : String) (p : Provider)
    (hp : regGet st.provider_registry provider_id = some p)
    (how : p.owner ≠ caller) :
    get_provider_earnings st caller provider_id
      = .error "Unauthorized: You can only view your own provider earnings" ∧
    get_provider_earnings_breakdown st caller provider_id
      = .error "Unauthorized: You can only view your own provider earnings" ∧
    p ∈ get_all_providers st := by
  refine ⟨?_, ?_, ?_⟩
  · simp [get_provider_earnings, hp, how]
  · simp [get_provider_earnings_breakdown, hp, how]
  · exact regGet_mem st.provider_registry provider_id p hp

/-- Witness for C5's amended claim: caller 2 is not the owner of the concrete
provider (owned by 1); both earnings queries reject, yet the full record —
earnings 42 included — is in the open `get_all_providers` output. -/
theorem C5_witness :
    get_provider_earnings exStateB 2 "provider_1"
      = .error "Unauthorized: You can only view your own provider earnings" ∧
    get_provider_earnings_breakdown exStateB 2 "provider_1"
      = .error "Unauthorized: You can only view your own provider earnings" ∧
    exProviderB ∈ get_all_providers exStateB := by
  exact C5_amended_earnings_exposure exStateB 2 "provider_1" exProviderB
    (by decide) (by decide)

theorem regAll_insert {α : Type} {P : α → Prop} {r : List (String × α)}
    {k : String} {v : α}
    (hr : ∀ k' v', regGet r k' = some v' → P v') (hv : P v) :
    ∀ k' v', regGet (regInsert r k v) k' = some v' → P v' := by
  intro k' v' h
  rw [regGet_regInsert] at h
  by_cases hk : k = k'
  · rw [if_pos hk] at h
    cases h
    exact hv
  · rw [if_neg hk] at h
    exact hr k' v' h

theorem regAll_remove {α : Type} {P : α → Prop} {r : List (String × α)}
    {k : String}
    (hr : ∀ k' v', regGet r k' = some v' → P v') :
    ∀ k' v', regGet (regRemove r k) k' = some v' → P v' := by
  intro k' v' h
  rw [regGet_regRemove] at h
  by_cases hk : k = k'
  · rw [if_pos hk] at h
    exact absurd h (by simp)
  · rw [if_neg hk] at h
    exact hr k' v' h

theorem applyOp_nonneg (st : CanisterState) (op : Op)
    (h : Nonneg st) (hwf : op.wf) : Nonneg (applyOp st op) := by
  obtain ⟨hcamp, hprov⟩ := h
  cases op with
  | register_provider caller name locations =>
    exact ⟨hcamp, regAll_insert hprov le_rfl⟩
  | create_campaign caller name description image locations budget =>
    exact ⟨regAll_insert hcamp hwf, hprov⟩
  | fund_campaign caller campaign_id amount transfer =>
    cases hg : regGet st.campaign_registry campaign_id with
    | none =>
      have hst : applyOp st (.fund_campaign caller campaign_id amount transfer) = st := by
        simp [applyOp, fund_campaign, hg]
      rw [hst]
      exact ⟨hcamp, hprov⟩
    | some c =>
      by_cases how : c.owner = caller
      · subst how
        cases transfer with
        | error e =>
          have hst : applyOp st
              (.fund_campaign c.owner campaign_id amount (.error e)) = st := by
            simp [applyOp, fund_campaign, hg]
          rw [hst]
          exact ⟨hcamp, hprov⟩
        | ok b =>
          refine ⟨?_, ?_⟩ <;> intro k v hk
          · simp [applyOp, fund_campaign, hg] at hk
            refine regAll_insert hcamp ?_ k v hk
            exact add_nonneg (hcamp campaign_id c hg) hwf
          · simp [applyOp, fund_campaign, hg] at hk
            exact hprov k v hk
      · have hst : applyOp st
            (.fund_campaign caller campaign_id amount transfer) = st := by
          simp [applyOp, fund_campaign, hg, how]
        rw [hst]
        exact ⟨hcamp, hprov⟩
  | withdraw_provider_earnings caller provider_id amount transfer =>
    cases hg : regGet st.provider_registry provider_id with
    | none =>
      have hst : applyOp st
          (.withdraw_provider_earnings caller provider_id amount transfer) = st := by
        simp [applyOp, withdraw_provider_earnings, hg]
      rw [hst]
      exact ⟨hcamp, hprov⟩
    | some p =>
      by_cases how : p.owner = caller
      · subst how
        by_cases hins : p.total_earnings < amount
        · have hst : applyOp st
              (.withdraw_provider_earnings p.owner provider_id amount transfer) = st := by
            simp [applyOp, withdraw_provider_earnings, hg, hins]
          rw [hst]
          exact ⟨hcamp, hprov⟩
        · cases transfer with
          | error e =>
            have hst : applyOp st
                (.withdraw_provider_earnings p.owner provider_id amount (.error e)) = st := by
              simp [applyOp, withdraw_provider_earnings, hg, hins]
            rw [hst]
            exact ⟨hcamp, hprov⟩
          | ok b =>
            refine ⟨?_, ?_⟩ <;> intro k v hk
            · simp [applyOp, withdraw_provider_earnings, hg, hins] at hk
              exact hcamp k v hk
            · simp [applyOp, withdraw_provider_earnings, hg, hins] at hk
              refine regAll_insert hprov ?_ k v hk
              show (0 : Int) ≤ p.total_earnings - amount
              exact sub_nonneg.mpr (le_of_not_lt hins)
      · have hst : applyOp st
            (.withdraw_provider_earnings caller provider_id amount transfer) = st := by
          simp [applyOp, withdraw_provider_earnings, hg, how]
        rw [hst]
        exact ⟨hcamp, hprov⟩
  | pay_provider caller campaign_id provider_id amount =>
    cases hg : regGet st.campaign_registry campaign_id with
    | none =>
      have hst : applyOp st
          (.pay_provider caller campaign_id provider_id amount) = st := by
        simp [applyOp, pay_provider, hg]
      rw [hst]
      exact ⟨hcamp, hprov⟩
    | some c =>
      by_cases how : c.owner = caller
      · subst how
        by_cases hbud : c.budget < amount
        · have hst : applyOp st
              (.pay_provider c.owner campaign_id provider_id amount) = st := by
            simp [applyOp, pay_provider, hg, hbud]
          rw [hst]
          exact ⟨hcamp, hprov⟩
        · cases hp : regGet st.provider_registry provider_id with
          | none =>
            have hst : applyOp st
                (.pay_provider c.owner campaign_id provider_id amount) = st := by
              simp [applyOp, pay_provider, hg, hbud, hp]
            rw [hst]
            exact ⟨hcamp, hprov⟩
          | some p =>
            cases he : regGet st.earnings_registry (provider_id ++ ":" ++ campaign_id) with
            | none =>
              refine ⟨?_, ?_⟩ <;> intro k v hk
              · simp [applyOp, pay_provider, hg, hbud, hp, he] at hk
                refine regAll_insert hcamp ?_ k v hk
                show (0 : Int) ≤ c.budget - amount
                exact sub_nonneg.mpr (le_of_not_lt hbud)
              · simp [applyOp, pay_provider, hg, hbud, hp, he] at hk
                refine regAll_insert hprov ?_ k v hk
                exact add_nonneg (hprov provider_id p hp) hwf
            | some e0 =>
              refine ⟨?_, ?_⟩ <;> intro k v hk
              · simp [applyOp, pay_provider, hg, hbud, hp, he] at hk
                refine regAll_insert hcamp ?_ k v hk
                show (0 : Int) ≤ c.budget - amount
                exact sub_nonneg.mpr (le_of_not_lt hbud)
              · simp [applyOp, pay_provider, hg, hbud, hp, he] at hk
                refine regAll_insert hprov ?_ k v hk
                exact add_nonneg (hprov provider_id p hp) hwf
      · have hst : applyOp st
            (.pay_provider caller campaign_id provider_id amount) = st := by
          simp [applyOp, pay_provider, hg, how]
        rw [hst]
        exact ⟨hcamp, hprov⟩
  | withdraw_campaign_funds caller campaign_id amount transfer =>
    cases hg : regGet st.campaign_registry campaign_id with
    | none =>
      have hst : applyOp st
          (.withdraw_campaign_funds caller campaign_id amount transfer) = st := by
        simp [applyOp, withdraw_campaign_funds, hg]
      rw [hst]
      exact ⟨hcamp, hprov⟩
    | some c =>
      by_cases how : c.owner = caller
      · subst how
        by_cases hbud : c.budget < amount
        · have hst : applyOp st
              (.withdraw_campaign_funds c.owner campaign_id amount transfer) = st := by
            simp [applyOp, withdraw_campaign_funds, hg, hbud]
          rw [hst]
          exact ⟨hcamp, hprov⟩
        · cases transfer with
          | ok b =>
            refine ⟨?_, ?_⟩ <;> intro k v hk
            · simp [applyOp, withdraw_campaign_funds, hg, hbud] at hk
              refine regAll_insert hcamp ?_ k v hk
              show (0 : Int) ≤ c.budget - amount
              exact sub_nonneg.mpr (le_of_not_lt hbud)
            · simp [applyOp, withdraw_campaign_funds, hg, hbud] at hk
              exact hprov k v hk
          | error e =>
            refine ⟨?_, ?_⟩ <;> intro k v hk
            · simp [applyOp, withdraw_campaign_funds, hg, hbud, regGet_regInsert] at hk
              by_cases hkk : campaign_id = k
              · rw [if_pos hkk] at hk
                rw [Option.some_inj] at hk
                rw [← hk]
                exact hcamp campaign_id c hg
              · rw [if_neg hkk, if_neg hkk] at hk
                exact hcamp k v hk
            · simp [applyOp, withdraw_campaign_funds, hg, hbud, regGet_regInsert] at hk
              exact hprov k v hk
      · have hst : applyOp st
            (.withdraw_campaign_funds caller campaign_id amount transfer) = st := by
          simp [applyOp, withdraw_campaign_funds, hg, how]
        rw [hst]
        exact ⟨hcamp, hprov⟩
  | close_campaign caller campaign_id =>
    cases hg : regGet st.campaign_registry campaign_id with
    | none =>
      have hst : applyOp st (.close_campaign caller campaign_id) = st := by
        simp [applyOp, close_campaign, hg]
      rw [hst]
      exact ⟨hcamp, hprov⟩
    | some c =>
      by_cases how : c.owner = caller
      · subst how
        refine ⟨?_, ?_⟩ <;> intro k v hk
        · simp [applyOp, close_campaign, hg] at hk
          exact regAll_remove hcamp k v hk
        · simp [applyOp, close_campaign, hg] at hk
          exact hprov k v hk
      · have hst : applyOp st (.close_campaign caller campaign_id) = st := by
          simp [applyOp, close_campaign, hg, how]
        rw [hst]
        exact ⟨hcamp, hprov⟩

theorem nonneg_foldl (ops : List Op) :
    ∀ st : CanisterState, Nonneg st → (∀ op ∈ ops, op.wf) →
      Nonneg (ops.foldl applyOp st) := by
  induction ops with
  | nil => intro st h _; exact h
  | cons op rest ih =>
    intro st h hwf
    simp only [List.foldl_cons]
    exact ih (applyOp st op) (applyOp_nonneg st op h (hwf op (by simp)))
      (fun o ho => hwf o (by simp [ho]))

/-- C7: starting from the freshly installed canister, after any sequence of
completed operations (commits and rollbacks alike, with the candid boundary
guaranteeing non-negative amounts), every stored campaign budget and every
stored provider earnings total is non-negative — in particular no checked
subtraction in the source ever underflows. -/
theorem C7_balances_nonneg (ops : List Op) (hwf : ∀ op ∈ ops, op.wf) :
    Nonneg (ops.foldl applyOp initState) := by
  refine nonneg_foldl ops initState ⟨?_, ?_⟩ hwf <;>
    intro k v h <;> exact absurd h (by simp [initState, regGet])

/-- Witness for C7: a concrete four-operation history — register a provider,
create a funded campaign, pay the provider, roll back a failed campaign
withdrawal — ends with all balances non-negative. -/
theorem C7_witness :
    (∀ op ∈ [Op.register_provider 1 "Billboards Inc" [],
             Op.create_campaign 1 "Launch" "ad run" none none 100,
             Op.pay_provider 1 "campaign_1" "provider_1" 40,
             Op.withdraw_campaign_funds 1 "campaign_1" 25 (.error "net down")],
        op.wf) ∧
    Nonneg ([Op.register_provider 1 "Billboards Inc" [],
             Op.create_campaign 1 "Launch" "ad run" none none 100,
             Op.pay_provider 1 "campaign_1" "provider_1" 40,
             Op.withdraw_campaign_funds 1 "campaign_1" 25
               (.error "net down")].foldl applyOp initState) := by
  have hwf : ∀ op ∈ [Op.register_provider 1 "Billboards Inc" [],
             Op.create_campaign 1 "Launch" "ad run" none none 100,
             Op.pay_provider 1 "campaign_1" "provider_1" 40,
             Op.withdraw_campaign_funds 1 "campaign_1" 25 (.error "net down")],
        op.wf := by
    intro op hop
    fin_cases hop <;> norm_num [Op.wf]
  exact ⟨hwf, C7_balances_nonneg _ hwf⟩

theorem charVal_digitChar (d : Nat) (hd : d < 10) :
    charVal (Nat.digitChar d) = d := by
  interval_cases d <;> rfl

theorem map_charVal_digitChar (l : List Nat) (hl : ∀ x ∈ l, x < 10) :
    (l.map Nat.digitChar).map charVal = l := by
  induction l with
  | nil => rfl
  | cons a t ih =>
    simp only [List.map_cons, List.cons.injEq]
    exact ⟨charVal_digitChar a (hl a (by simp)), ih (fun x hx => hl x (by simp [hx]))⟩

theorem toDigitsCore_eq (n : Nat) (hn : n ≠ 0) :
    ∀ (fuel : Nat) (ds : List Char), n < fuel →
      Nat.toDigitsCore 10 fuel n ds
        = ((Nat.digits 10 n).map Nat.digitChar).reverse ++ ds := by
  induction n using Nat.strong_induction_on with
  | _ n ih =>
    intro fuel ds hfuel
    cases fuel with
    | zero => omega
    | succ fuel =>
      rw [Nat.digits_def' (by norm_num : (1:ℕ) < 10) (Nat.pos_of_ne_zero hn)]
      simp only [Nat.toDigitsCore, List.map_cons, List.reverse_cons]
      by_cases hq : n / 10 = 0
      · rw [if_pos hq, hq]
        simp
      · rw [if_neg hq]
        have hlt : n / 10 < n := Nat.div_lt_self (Nat.pos_of_ne_zero hn) (by norm_num)
        rw [ih (n / 10) hlt hq fuel (Nat.digitChar (n % 10) :: ds) (by omega)]
        simp

theorem repr_recover (n : Nat) :
    Nat.ofDigits 10 (((Nat.repr n).data.reverse).map charVal) = n := by
  by_cases hn : n = 0
  · subst hn
    rfl
  · have hdata : (Nat.repr n).data = ((Nat.digits 10 n).map Nat.digitChar).reverse := by
      show (List.asString (Nat.toDigits 10 n)).data = _
      have : Nat.toDigits 10 n = Nat.toDigitsCore 10 (n + 1) n [] := rfl
      rw [show (List.asString (Nat.toDigits 10 n)).data = Nat.toDigits 10 n from rfl, this,
        toDigitsCore_eq n hn (n + 1) [] (by omega)]
      simp
    rw [hdata, List.reverse_reverse,
      map_charVal_digitChar _ (fun x hx => Nat.digits_lt_base (by norm_num) hx),
      Nat.ofDigits_digits]

theorem repr_injective : Function.Injective Nat.repr := by
  intro a b h
  have h2 := repr_recover a
  have h3 := repr_recover b
  rw [h] at h2
  exact h2.symm.trans h3

theorem prefix_repr_injective (pre : String) :
    Function.Injective (fun n : Nat => pre ++ Nat.repr n) := by
  intro a b h
  have hdata : pre.data ++ (Nat.repr a).data = pre.data ++ (Nat.repr b).data :=
    congrArg String.data h
  have hrepr : (Nat.repr a).data = (Nat.repr b).data :=
    List.append_cancel_left hdata
  exact repr_injective (congrArg String.mk hrepr)

theorem genCampaignIds_eq (n : Nat) : ∀ st : CanisterState,
    genCampaignIds n st
      = (List.range n).map
          (fun i => "campaign_" ++ Nat.repr ((st.campaign_counter + i + 1) % 2 ^ 64)) := by
  induction n with
  | zero => intro st; rfl
  | succ n ih =>
    intro st
    rw [List.range_succ_eq_map]
    simp only [genCampaignIds, generate_campaign_id, List.map_cons, List.map_map]
    congr 1
    rw [ih]
    apply List.map_congr_left
    intro i _
    simp only [Function.comp]
    congr 2
    rw [Nat.add_assoc ((st.campaign_counter + 1) % 2 ^ 64) i 1, Nat.mod_add_mod]
    congr 1
    omega

theorem genProviderIds_eq (n : Nat) : ∀ st : CanisterState,
    genProviderIds n st
      = (List.range n).map
          (fun i => "provider_" ++ Nat.repr ((st.provider_counter + i + 1) % 2 ^ 64)) := by
  induction n with
  | zero => intro st; rfl
  | succ n ih =>
    intro st
    rw [List.range_succ_eq_map]
    simp only [genProviderIds, generate_provider_id, List.map_cons, List.map_map]
    congr 1
    rw [ih]
    apply List.map_congr_left
    intro i _
    simp only [Function.comp]
    congr 2
    rw [Nat.add_assoc ((st.provider_counter + 1) % 2 ^ 64) i 1, Nat.mod_add_mod]
    congr 1
    omega

/-- C10 counterexample: the source counters are u64 and the unchecked
increment wraps at `2 ^ 64`, so unbounded distinctness fails — among the ids
produced by the first `2 ^ 64 + 1` generator calls from the fresh state, the
first and the last are both `campaign_1` (resp. `provider_1`), so the issued
ids are not pairwise distinct and the `2 ^ 64 + 1`-st id is not
`campaign_<n>` for `n = 2 ^ 64 + 1`. -/
theorem C10_counterexample :
    ¬ (genCampaignIds (2 ^ 64 + 1) initState).Nodup ∧
    ¬ (genProviderIds (2 ^ 64 + 1) initState).Nodup := by
  constructor
  · intro h
    rw [genCampaignIds_eq] at h
    have hinj := List.inj_on_of_nodup_map h
    have h0 : (0 : Nat) ∈ List.range (2 ^ 64 + 1) := by
      rw [List.mem_range]
      positivity
    have h1 : (2 ^ 64 : Nat) ∈ List.range (2 ^ 64 + 1) := by
      rw [List.mem_range]
      omega
    have harith : (initState.campaign_counter + 0 + 1) % 2 ^ 64
        = (initState.campaign_counter + 2 ^ 64 + 1) % 2 ^ 64 := by
      show (0 + 0 + 1) % 2 ^ 64 = (0 + 2 ^ 64 + 1) % 2 ^ 64
      rw [Nat.zero_add, Nat.zero_add, Nat.add_comm, Nat.add_mod_right]
    have heq := congrArg (fun k => "campaign_" ++ Nat.repr k) harith
    have := hinj h0 h1 heq
    norm_num at this
  · intro h
    rw [genProviderIds_eq] at h
    have hinj := List.inj_on_of_nodup_map h
    have h0 : (0 : Nat) ∈ List.range (2 ^ 64 + 1) := by
      rw [List.mem_range]
      positivity
    have h1 : (2 ^ 64 : Nat) ∈ List.range (2 ^ 64 + 1) := by
      rw [List.mem_range]
      omega
    have harith : (initState.provider_counter + 0 + 1) % 2 ^ 64
        = (initState.provider_counter + 2 ^ 64 + 1) % 2 ^ 64 := by
      show (0 + 0 + 1) % 2 ^ 64 = (0 + 2 ^ 64 + 1) % 2 ^ 64
      rw [Nat.zero_add, Nat.zero_add, Nat.add_comm, Nat.add_mod_right]
    have heq := congrArg (fun k => "provider_" ++ Nat.repr k) harith
    have := hinj h0 h1 heq
    norm_num at this

/-- C10 (amended): from the freshly installed canister and as long as the
u64 counter has not wrapped — that is, for every `n < 2 ^ 64` — the `n`-th
call of the campaign (resp. provider) id generator returns exactly
`campaign_n` (resp. `provider_n`); the counters start at zero and are
incremented before each issuance, so ids start at 1, and the ids issued
before the wrap point are pairwise distinct. -/
theorem C10_id_generation (n : Nat) (hn : n < 2 ^ 64) :
    genCampaignIds n initState
      = (List.range n).map (fun i => "campaign_" ++ Nat.repr (i + 1)) ∧
    (genCampaignIds n initState).Nodup ∧
    genProviderIds n initState
      = (List.range n).map (fun i => "provider_" ++ Nat.repr (i + 1)) ∧
    (genProviderIds n initState).Nodup := by
  have hc : genCampaignIds n initState
      = (List.range n).map (fun i => "campaign_" ++ Nat.repr (i + 1)) := by
    rw [genCampaignIds_eq]
    apply List.map_congr_left
    intro i hi
    rw [List.mem_range] at hi
    congr 2
    show (0 + i + 1) % 2 ^ 64 = i + 1
    rw [Nat.zero_add]
    exact Nat.mod_eq_of_lt (Nat.lt_of_le_of_lt hi hn)
  have hp : genProviderIds n initState
      = (List.range n).map (fun i => "provider_" ++ Nat.repr (i + 1)) := by
    rw [genProviderIds_eq]
    apply List.map_congr_left
    intro i hi
    rw [List.mem_range] at hi
    congr 2
    show (0 + i + 1) % 2 ^ 64 = i + 1
    rw [Nat.zero_add]
    exact Nat.mod_eq_of_lt (Nat.lt_of_le_of_lt hi hn)
  refine ⟨hc, ?_, hp, ?_⟩
  · rw [hc]
    exact List.Nodup.map
      ((prefix_repr_injective "campaign_").comp (fun a b => by omega))
      (List.nodup_range n)
  · rw [hp]
    exact List.Nodup.map
      ((prefix_repr_injective "provider_").comp (fun a b => by omega))
      (List.nodup_range n)

/-- Witness for C10's amended claim: the first three generator calls — well
below the wrap bound — return `campaign_1, campaign_2, campaign_3` and
`provider_1, provider_2, provider_3`, pairwise distinct. -/
theorem C10_witness :
    3 < 2 ^ 64 ∧
    genCampaignIds 3 initState = ["campaign_1", "campaign_2", "campaign_3"] ∧
    (genCampaignIds 3 initState).Nodup ∧
    genProviderIds 3 initState = ["provider_1", "provider_2", "provider_3"] ∧
    (genProviderIds 3 initState).Nodup := by
  obtain ⟨h1, h2, h3, h4⟩ := C10_id_generation 3 (by norm_num)
  refine ⟨by norm_num, ?_, h2, ?_, h4⟩
  · rw [h1]
    rfl
  · rw [h3]
    rfl
